import Mathlib

/-!
Verification of the laser debris-removal engine of this repository.

The development shallowly embeds the numerical core of the repository:

* the physics module (momentum-coupling and heat-absorption curves, beam
  propagation, fluence, intensity, the thermal budget tracker, the per-pass
  laser simulation and the mission cost estimator), and
* the ground-station planner module (perigee evolution under repeated
  apogee burns, and the visibility scanner).

Real-valued quantities computed with square roots, exponentials or pi are
modelled over the real numbers; the visibility scanner, which only compares
and subtracts sampled values, is modelled over the rationals so that its
outputs evaluate by decision procedures.  Division is the total division of
the ordered fields except where a claim is specifically about behaviour at a
zero denominator; there the division is modelled by an Option-valued
operation that returns none exactly when the source division would produce
a non-finite floating-point value.
-/

namespace Skyhack

/-! ## Physics constants (PHYSICS_CONSTANTS in the physics module) -/

/-- ATMOSPHERE.TRANSMISSION_EFFICIENCY. -/
def TRANSMISSION_EFFICIENCY : ℝ := 0.7

/-- ORBITAL.EARTH_RADIUS in meters. -/
def EARTH_RADIUS : ℝ := 6371e3

/-- ORBITAL.EARTH_MU in cubic meters per squared second. -/
def EARTH_MU : ℝ := 3.986004418e14

/-- ORBITAL.REENTRY_ALTITUDE in meters. -/
def REENTRY_ALTITUDE : ℝ := 200e3

/-- SAFETY.SOLAR_CONSTANT in watts per square meter. -/
def SOLAR_CONSTANT : ℝ := 1361

/-- SAFETY.MAX_SOLAR_CONSTANT_MULTIPLIER. -/
def MAX_SOLAR_CONSTANT_MULTIPLIER : ℝ := 100

/-- SAFETY.COOLDOWN_SAFETY_FACTOR. -/
def COOLDOWN_SAFETY_FACTOR : ℝ := 1.5

/-! ## Fluence curves (momentumCouplingCoefficient, heatAbsorptionEfficiency) -/

open Classical in
/-- Momentum-coupling coefficient as a function of fluence in J per square cm,
translated from the physics module: four branches at breakpoints 10, 50, 150,
the last branch clamped from below at 10. -/
noncomputable def momentumCouplingCoefficient (fluence : ℝ) : ℝ :=
  if fluence < 10 then
    5 + fluence * 0.5
  else if fluence < 50 then
    10 + (fluence - 10) * 0.375
  else if fluence < 150 then
    25 - (fluence - 50) * 0.05
  else
    max 10 (20 - (fluence - 150) * 0.05)

open Classical in
/-- Heat-absorption efficiency as a function of fluence in J per square cm,
translated from the physics module: three branches at breakpoints 20, 100,
the last branch clamped from below at 0.3. -/
noncomputable def heatAbsorptionEfficiency (fluence : ℝ) : ℝ :=
  if fluence < 20 then
    0.7
  else if fluence < 100 then
    0.7 - (fluence - 20) * 0.003
  else
    max 0.3 (0.46 - (fluence - 100) * 0.001)

/-- Linear interpolation through the points (x0, y0) and (x1, y1), used to
state the piecewise-linear spec curves by their breakpoints. -/
noncomputable def segLin (x0 y0 x1 y1 f : ℝ) : ℝ :=
  y0 + (f - x0) * ((y1 - y0) / (x1 - x0))

open Classical in
/-- Amended spec curve for the momentum-coupling coefficient, written as a
breakpoint table: rising 5 to 10 on fluence below 10, rising 10 to 25 on
fluence 10 to 50, falling 25 to 20 on fluence 50 to 150, and for fluence
above 150 continuing to fall linearly from 20 (reaching the floor 10 at
fluence 350), clamped from below at the floor 10. -/
noncomputable def cmCurveAmendedSpec (f : ℝ) : ℝ :=
  if f < 10 then segLin 0 5 10 10 f
  else if f < 50 then segLin 10 10 50 25 f
  else if f < 150 then segLin 50 25 150 20 f
  else max 10 (segLin 150 20 350 10 f)

open Classical in
/-- Amended spec curve for the heat-absorption efficiency, written as a
breakpoint table: flat 0.7 below fluence 20, falling linearly 0.7 to 0.46 on
fluence 20 to 100, and for fluence above 100 continuing to fall linearly from
0.46 (reaching the floor 0.3 at fluence 260), clamped from below at 0.3. -/
noncomputable def etaCurveAmendedSpec (f : ℝ) : ℝ :=
  if f < 20 then 0.7
  else if f < 100 then segLin 20 0.7 100 0.46 f
  else max 0.3 (segLin 100 0.46 260 0.3 f)

/-! ## Beam propagation, fluence, intensity, delta-V -/

open Classical in
/-- Beam radius at range, translated from calculateBeamRadius: far-field
linear expansion beyond ten Rayleigh ranges, full Gaussian expansion below. -/
noncomputable def calculateBeamRadius
    (distance wavelength transmitterDiameter beamQuality : ℝ) : ℝ :=
  let initialRadius := transmitterDiameter / 2
  let divergenceAngle := beamQuality * wavelength / (Real.pi * initialRadius)
  let rayleighRange := Real.pi * initialRadius * initialRadius / (beamQuality * wavelength)
  if distance > 10 * rayleighRange then
    initialRadius + distance * divergenceAngle
  else
    initialRadius * Real.sqrt (1 + (distance / rayleighRange) ^ 2)

/-- Fluence in J per square cm, translated from calculateFluence. -/
noncomputable def calculateFluence
    (pulseEnergy beamRadius atmosphericTransmission : ℝ) : ℝ :=
  pulseEnergy * atmosphericTransmission / (Real.pi * beamRadius * beamRadius) / 10000

/-- Intensity in W per square cm, translated from calculateIntensity. -/
noncomputable def calculateIntensity (pulseEnergy pulseDuration beamRadius : ℝ) : ℝ :=
  pulseEnergy / pulseDuration / (Real.pi * beamRadius * beamRadius) / 10000

/-- Delta-V of a single pulse, translated from calculateDeltaV. -/
noncomputable def calculateDeltaV (pulseEnergy mass fluence : ℝ) : ℝ :=
  momentumCouplingCoefficient fluence * 1e-6 * pulseEnergy / mass

/-- Thermal pulse budget for one pass, translated from
calculateMaxPulsesPerPass; the currentTemp argument is accepted and unused
exactly as in the source.  The result is clamped from below at one pulse. -/
noncomputable def calculateMaxPulsesPerPass
    (maxTempRise currentTemp fluence areaToMass specificHeat : ℝ) : ℤ :=
  let energyAbsorbedPerPulse := heatAbsorptionEfficiency fluence * (fluence * 10000)
  let tempRisePerPulse := areaToMass / specificHeat * energyAbsorbedPerPulse
  max 1 ⌊maxTempRise / tempRisePerPulse⌋

/-! ## Thermal budget tracker (class ThermalBudgetTracker) -/

/-- One row of PHYSICS_CONSTANTS.MATERIALS. -/
structure MaterialProfile where
  DENSITY : ℝ
  SPECIFIC_HEAT : ℝ
  MELTING_POINT : ℝ
  MAX_TEMP_RISE : ℝ
  THERMAL_CONDUCTIVITY : ℝ

/-- MATERIALS.ALUMINUM. -/
def ALUMINUM : MaterialProfile := ⟨2700, 900, 933, 100, 237⟩

/-- MATERIALS.STEEL. -/
def STEEL : MaterialProfile := ⟨7850, 470, 1811, 200, 50⟩

/-- MATERIALS.MLI. -/
def MLI : MaterialProfile := ⟨100, 1000, 600, 80, 0.05⟩

/-- The mutable state of a ThermalBudgetTracker instance: the physical
parameters fixed by the constructor together with the evolving temperature.
The heatHistory diagnostic list is not modelled. -/
structure ThermalState where
  mass : ℝ
  area : ℝ
  areaToMass : ℝ
  specificHeat : ℝ
  maxTempRise : ℝ
  meltingPoint : ℝ
  currentTemp : ℝ
  ambientTemp : ℝ

/-- The ThermalBudgetTracker constructor: stores mass, area, the derived
area-to-mass ratio, the material row, and the initial temperature as both
current and ambient temperature. -/
noncomputable def mkThermalBudgetTracker
    (mat : MaterialProfile) (mass area initialTemp : ℝ) : ThermalState :=
  ⟨mass, area, area / mass, mat.SPECIFIC_HEAT, mat.MAX_TEMP_RISE,
    mat.MELTING_POINT, initialTemp, initialTemp⟩

/-- Rejection reasons of applyHeating. -/
inductive HeatReason where
  | MELTING_RISK
  | TEMP_LIMIT_EXCEEDED
deriving DecidableEq

/-- Return value of applyHeating. -/
inductive HeatResult where
  | success (newTemp tempRise totalRise safetyMargin : ℝ)
  | failure (reason : HeatReason) (currentTemp attemptedTemp maxAllowed : ℝ)

/-- Temperature rise of a pulse train, translated from calculateTempRise. -/
noncomputable def calculateTempRise (th : ThermalState) (numPulses fluence : ℝ) : ℝ :=
  th.areaToMass / th.specificHeat *
    (heatAbsorptionEfficiency fluence * (fluence * 10000) * numPulses)

open Classical in
/-- Heating transition, translated from applyHeating: the proposed new
temperature is accepted when the total rise stays within maxTempRise and the
melting point is not reached; otherwise the state is returned unchanged with
the applicable rejection reason. -/
noncomputable def applyHeating (th : ThermalState) (numPulses fluence : ℝ) :
    HeatResult × ThermalState :=
  let tempRise := calculateTempRise th numPulses fluence
  let newTemp := th.currentTemp + tempRise
  let totalTempRise := newTemp - th.ambientTemp
  if totalTempRise ≤ th.maxTempRise ∧ ¬ newTemp ≥ th.meltingPoint then
    (HeatResult.success newTemp tempRise totalTempRise (th.maxTempRise - totalTempRise),
      { th with currentTemp := newTemp })
  else
    (HeatResult.failure
      (if newTemp ≥ th.meltingPoint then .MELTING_RISK else .TEMP_LIMIT_EXCEEDED)
      th.currentTemp newTemp (th.ambientTemp + th.maxTempRise), th)

/-- Radiative cooling rate of applyCooling, with emissivity 0.8 and the
Stefan-Boltzmann constant 5.67e-8. -/
noncomputable def coolingRate (th : ThermalState) : ℝ :=
  0.8 * 5.67e-8 * th.area / (th.mass * th.specificHeat)

/-- Effective time constant of applyCooling, linearized at the current
temperature. -/
noncomputable def coolingTimeConstant (th : ThermalState) : ℝ :=
  1 / (4 * coolingRate th * th.currentTemp ^ 3)

/-- Cooling transition, translated from applyCooling: exponential relaxation
of the temperature toward ambient. -/
noncomputable def applyCooling (th : ThermalState) (cooldownTime : ℝ) : ThermalState :=
  { th with currentTemp := th.ambientTemp +
      (th.currentTemp - th.ambientTemp) *
        Real.exp (-cooldownTime / coolingTimeConstant th) }

/-! ## Orbital change from a tangential burn (calculateOrbitalChanges) -/

/-- The fields of calculateOrbitalChanges consumed by the pass simulation. -/
structure OrbitalChanges where
  newSemiMajorAxis : ℝ
  newEccentricity : ℝ
  perigeeOld : ℝ
  perigeeNew : ℝ
  apogeeOld : ℝ
  apogeeNew : ℝ

/-- Orbital element update from a tangential delta-V at a true anomaly,
translated from calculateOrbitalChanges. -/
noncomputable def calculateOrbitalChanges
    (deltaV semiMajorAxis eccentricity trueAnomaly : ℝ) : OrbitalChanges :=
  let r := semiMajorAxis * (1 - eccentricity * eccentricity) /
    (1 + eccentricity * Real.cos trueAnomaly)
  let v := Real.sqrt (EARTH_MU * (2 / r - 1 / semiMajorAxis))
  let vNew := v + deltaV
  let aNew := 1 / (2 / r - vNew * vNew / EARTH_MU)
  let hNew := r * vNew
  let eNew := Real.sqrt (1 - hNew * hNew / (EARTH_MU * aNew))
  { newSemiMajorAxis := aNew
    newEccentricity := eNew
    perigeeOld := semiMajorAxis * (1 - eccentricity) - EARTH_RADIUS
    perigeeNew := aNew * (1 - eNew) - EARTH_RADIUS
    apogeeOld := semiMajorAxis * (1 + eccentricity) - EARTH_RADIUS
    apogeeNew := aNew * (1 + eNew) - EARTH_RADIUS }

/-! ## Single-pass simulation (simulateLaserPass) -/

/-- Debris parameters read by the pass simulation.  A visibilityDuration of
zero models an absent field: the source substitutes the default 300 seconds
through a falsy-value check. -/
structure Debris where
  size : ℝ
  mass : ℝ
  area : ℝ
  semiMajorAxis : ℝ
  eccentricity : ℝ
  perigeeAltitude : ℝ
  apogeeAltitude : ℝ
  visibilityDuration : ℝ
  cumulativeDeltaV : ℝ

/-- Laser system configuration consumed by the pass simulation. -/
structure LaserParams where
  pulseEnergy : ℝ
  wavelength : ℝ
  pulseDuration : ℝ
  transmitterDiameter : ℝ
  beamQuality : ℝ
  repetitionRate : ℝ

/-- Beam radius at the engagement distance inside simulateLaserPass. -/
noncomputable def simBeamRadius (l : LaserParams) (distance : ℝ) : ℝ :=
  calculateBeamRadius distance l.wavelength l.transmitterDiameter l.beamQuality

/-- Fluence at the engagement distance inside simulateLaserPass. -/
noncomputable def simFluence (l : LaserParams) (distance : ℝ) : ℝ :=
  calculateFluence l.pulseEnergy (simBeamRadius l distance) TRANSMISSION_EFFICIENCY

/-- Intensity at the engagement distance inside simulateLaserPass. -/
noncomputable def simIntensity (l : LaserParams) (distance : ℝ) : ℝ :=
  calculateIntensity l.pulseEnergy l.pulseDuration (simBeamRadius l distance)

/-- Intensity cap of the safety gate: the solar constant times the allowed
multiplier, scaled to W per square cm. -/
noncomputable def maxSafeIntensity : ℝ :=
  SOLAR_CONSTANT * MAX_SOLAR_CONSTANT_MULTIPLIER / 10000

open Classical in
/-- Pass duration used by simulateLaserPass, with the source's falsy-check
default of 300 seconds. -/
noncomputable def simPassDuration (d : Debris) : ℝ :=
  if d.visibilityDuration = 0 then 300 else d.visibilityDuration

/-- Pulse cap from the repetition rate over the pass duration. -/
noncomputable def simMaxPulsesByTime (d : Debris) (l : LaserParams) : ℤ :=
  ⌊simPassDuration d * l.repetitionRate⌋

/-- Pulse cap from the remaining thermal margin, as simulateLaserPass
invokes calculateMaxPulsesPerPass. -/
noncomputable def simMaxPulsesByThermal (d : Debris) (th : ThermalState) (fluence : ℝ) : ℤ :=
  calculateMaxPulsesPerPass (th.maxTempRise - (th.currentTemp - th.ambientTemp))
    th.currentTemp fluence (d.area / d.mass) th.specificHeat

/-- Pulses actually delivered: the lesser of the thermal and time caps. -/
noncomputable def simActualPulses
    (d : Debris) (l : LaserParams) (th : ThermalState) (distance : ℝ) : ℤ :=
  min (simMaxPulsesByThermal d th (simFluence l distance)) (simMaxPulsesByTime d l)

/-- Outcome of one simulated pass; the engagement payload carries the data
the campaign loop consumes. -/
inductive SimOutcome where
  | intensityTooHigh (intensity maxIntensity : ℝ)
  | thermalLimitReached
  | thermalRejected (reason : HeatReason)
  | engaged (pulses : ℤ) (totalDeltaV : ℝ) (reentryAchieved : Prop)

open Classical in
/-- Single-pass simulation, translated from simulateLaserPass: the intensity
safety gate for large debris, the thermal and time pulse caps, the heating
transition, and on acceptance the orbital update from a retrograde burn at
apogee.  The returned triple carries the outcome together with the thermal
state and debris as left by the call. -/
noncomputable def simulateLaserPass (d : Debris) (l : LaserParams) (distance : ℝ)
    (th : ThermalState) : SimOutcome × ThermalState × Debris :=
  if d.size > 5 ∧ simIntensity l distance > maxSafeIntensity then
    (SimOutcome.intensityTooHigh (simIntensity l distance) maxSafeIntensity, th, d)
  else if simActualPulses d l th distance < 1 then
    (SimOutcome.thermalLimitReached, th, d)
  else
    match applyHeating th ((simActualPulses d l th distance : ℤ) : ℝ) (simFluence l distance) with
    | (HeatResult.failure reason _ _ _, th2) => (SimOutcome.thermalRejected reason, th2, d)
    | (HeatResult.success _ _ _ _, th2) =>
      let totalDeltaV := calculateDeltaV l.pulseEnergy d.mass (simFluence l distance) *
        ((simActualPulses d l th distance : ℤ) : ℝ)
      let oc := calculateOrbitalChanges (-totalDeltaV) d.semiMajorAxis d.eccentricity Real.pi
      (SimOutcome.engaged (simActualPulses d l th distance) totalDeltaV
          (oc.perigeeNew ≤ REENTRY_ALTITUDE),
        th2,
        { d with
          semiMajorAxis := oc.newSemiMajorAxis
          eccentricity := oc.newEccentricity
          perigeeAltitude := oc.perigeeNew
          apogeeAltitude := oc.apogeeNew
          cumulativeDeltaV := d.cumulativeDeltaV + totalDeltaV })

/-! ## Mission cost estimator (calculateMissionCost) -/

open Classical in
/-- Division as the source's runtime performs it, with the zero-denominator
case marked: the JS division of a nonzero float by zero yields Infinity and
of zero by zero yields NaN; both non-finite outcomes are modelled as none. -/
noncomputable def jsDiv (a b : ℝ) : Option ℝ :=
  if b = 0 then none else some (a / b)

/-- Result record of calculateMissionCost; the two ratio fields are the ones
computed by a division whose denominator can be zero. -/
structure CostBreakdown where
  electricityCost : ℝ
  operatingCost : ℝ
  totalCost : ℝ
  costPerKm : Option ℝ
  comparisonToSpacecraft : Option ℝ

/-- Mission cost estimate, translated from calculateMissionCost. -/
noncomputable def calculateMissionCost (totalEnergyGJ durationDays : ℝ) : CostBreakdown :=
  let energyKWh := totalEnergyGJ * 277.778
  let electricityCost := energyKWh * 0.10
  let operatingCost := 5000 * durationDays
  let totalCost := electricityCost + operatingCost
  { electricityCost := electricityCost
    operatingCost := operatingCost
    totalCost := totalCost
    costPerKm := jsDiv totalCost (durationDays * 10)
    comparisonToSpacecraft := jsDiv 100e6 totalCost }

/-! ## Planner module: perigee evolution (trackPerigeeEvolution) -/

/-- Planner constant EARTH_RADIUS_KM. -/
def EARTH_RADIUS_KM : ℝ := 6371.0

/-- Planner constant MU_EARTH in cubic km per squared second. -/
def MU_EARTH : ℝ := 398600.4418

/-- Planner constant RE_ENTRY_THRESHOLD_KM. -/
def RE_ENTRY_THRESHOLD_KM : ℝ := 200

/-- One row of the evolution array returned by trackPerigeeEvolution.  The
initial row of the source carries no deltaV and no reEntry field; it is
modelled with deltaV zero and a False flag. -/
structure EvolutionEntry where
  passNumber : ℕ
  perigeeAlt : ℝ
  apogeeAlt : ℝ
  semiMajorAxis : ℝ
  eccentricity : ℝ
  deltaV : ℝ
  reEntry : Prop

/-- Fallback row used to read the evolution array at an index. -/
def defaultEntry : EvolutionEntry := ⟨0, 0, 0, 0, 0, 0, False⟩

/-- Row of an evolution array at a position, with the fallback row past the
end. -/
def entryAt (l : List EvolutionEntry) (i : ℕ) : EvolutionEntry :=
  l.getD i defaultEntry

/-- Perigee altitude of the evolution row at a position. -/
noncomputable def perigeeAt (l : List EvolutionEntry) (i : ℕ) : ℝ :=
  (entryAt l i).perigeeAlt

/-- Loop body of trackPerigeeEvolution: the source iterates over the delta-V
array mutating the semi-major axis a, the perigee radius rp and the
eccentricity e while the apogee radius ra stays fixed; rp and e are threaded
here exactly as in the source even though the recurrence reads only a. -/
noncomputable def trackPerigeeEvolutionLoop
    (ra : ℝ) (a rp e : ℝ) (deltaVs : List ℝ) (idx : ℕ) : List EvolutionEntry :=
  match deltaVs with
  | [] => []
  | dv :: rest =>
    let vApogee := Real.sqrt (MU_EARTH * (2 / ra - 1 / a))
    let vNew := vApogee - dv / 1000
    let aNew := 1 / (2 / ra - vNew * vNew / MU_EARTH)
    let rpNew := 2 * aNew - ra
    let eNew := (ra - rpNew) / (ra + rpNew)
    { passNumber := idx + 1
      perigeeAlt := rpNew - EARTH_RADIUS_KM
      apogeeAlt := ra - EARTH_RADIUS_KM
      semiMajorAxis := aNew
      eccentricity := eNew
      deltaV := dv
      reEntry := rpNew - EARTH_RADIUS_KM < RE_ENTRY_THRESHOLD_KM } ::
      trackPerigeeEvolutionLoop ra aNew rpNew eNew rest (idx + 1)

/-- Perigee evolution over a delta-V sequence, translated from
trackPerigeeEvolution. -/
noncomputable def trackPerigeeEvolution
    (initialPerigee initialApogee : ℝ) (deltaVs : List ℝ) : List EvolutionEntry :=
  let a := (initialPerigee + initialApogee) / 2 + EARTH_RADIUS_KM
  let rp := initialPerigee + EARTH_RADIUS_KM
  let ra := initialApogee + EARTH_RADIUS_KM
  let e := (ra - rp) / (ra + rp)
  { passNumber := 0
    perigeeAlt := initialPerigee
    apogeeAlt := initialApogee
    semiMajorAxis := a
    eccentricity := e
    deltaV := 0
    reEntry := False } :: trackPerigeeEvolutionLoop ra a rp e deltaVs 0

/-! Spec-side recurrence for claim C4, written from the spec's words: at each
step the velocity at apogee is reduced by deltaV over 1000, the new
semi-major axis is solved from the vis-viva relation with the apogee radius
held fixed, the new perigee radius is 2a minus the apogee radius, and the
re-entry flag marks the steps whose perigee altitude is below the 200 km
threshold. -/

/-- Velocity at apogee from the vis-viva relation. -/
noncomputable def apogeeVelocity (ra a : ℝ) : ℝ :=
  Real.sqrt (MU_EARTH * (2 / ra - 1 / a))

/-- Velocity after the retrograde burn, the delta-V converted from m per s
to km per s. -/
noncomputable def reducedVelocity (v dv : ℝ) : ℝ := v - dv / 1000

/-- Semi-major axis solved from the vis-viva relation at the fixed apogee
radius. -/
noncomputable def smaFromVisVivaAtApogee (ra vNew : ℝ) : ℝ :=
  1 / (2 / ra - vNew * vNew / MU_EARTH)

/-- Perigee radius determined by the semi-major axis at the fixed apogee
radius. -/
noncomputable def perigeeRadiusFromSMA (ra a : ℝ) : ℝ := 2 * a - ra

/-- Spec-side evolution rows: the apogee-anchored recurrence applied step by
step. -/
noncomputable def specPerigeeEvolution
    (ra a : ℝ) (deltaVs : List ℝ) (idx : ℕ) : List EvolutionEntry :=
  match deltaVs with
  | [] => []
  | dv :: rest =>
    let aNew := smaFromVisVivaAtApogee ra (reducedVelocity (apogeeVelocity ra a) dv)
    let rpNew := perigeeRadiusFromSMA ra aNew
    { passNumber := idx + 1
      perigeeAlt := rpNew - EARTH_RADIUS_KM
      apogeeAlt := ra - EARTH_RADIUS_KM
      semiMajorAxis := aNew
      eccentricity := (ra - rpNew) / (ra + rpNew)
      deltaV := dv
      reEntry := rpNew - EARTH_RADIUS_KM < RE_ENTRY_THRESHOLD_KM } ::
      specPerigeeEvolution ra aNew rest (idx + 1)

/-- Spec-side initial row of the evolution array. -/
noncomputable def specInitialEntry (initialPerigee initialApogee : ℝ) : EvolutionEntry :=
  { passNumber := 0
    perigeeAlt := initialPerigee
    apogeeAlt := initialApogee
    semiMajorAxis := (initialPerigee + initialApogee) / 2 + EARTH_RADIUS_KM
    eccentricity := ((initialApogee + EARTH_RADIUS_KM) - (initialPerigee + EARTH_RADIUS_KM)) /
      ((initialApogee + EARTH_RADIUS_KM) + (initialPerigee + EARTH_RADIUS_KM))
    deltaV := 0
    reEntry := False }

/-! ## Planner module: visibility scanner (calculateVisibilityWindows) -/

/-- One emitted visibility pass, with times in seconds from the start of the
scan; the source also records the start azimuth, a value it copies verbatim
from the external propagation library, not modelled here. -/
structure VisPass where
  startTime : ℚ
  endTime : ℚ
  duration : ℚ
  maxElevation : ℚ
deriving DecidableEq

/-- Sampling step of the scanner: the source checks every minute. -/
def scanStepSeconds : ℚ := 60

/-- Scanner loop, translated from calculateVisibilityWindows: the elevation
at each minute-step sample is supplied by the external propagation library,
modelled as the input list of samples; the counter k numbers the sample
instants.  A rise above the threshold opens a pass, the running maximum
elevation is maintained while open, a drop closes it and the pass is kept
only when its duration exceeds 30 seconds; a pass still open when the
horizon is exhausted is discarded. -/
def visScanLoop (minElevation : ℚ) :
    ℕ → List ℚ → Option (ℚ × ℚ) → List VisPass
  | _, [], _ => []
  | k, e :: rest, active =>
    if e > minElevation then
      match active with
      | none => visScanLoop minElevation (k + 1) rest (some (scanStepSeconds * k, e))
      | some (s, m) => visScanLoop minElevation (k + 1) rest (some (s, max m e))
    else
      match active with
      | none => visScanLoop minElevation (k + 1) rest none
      | some (s, m) =>
        if scanStepSeconds * k - s > 30 then
          ⟨s, scanStepSeconds * k, scanStepSeconds * k - s, m⟩ ::
            visScanLoop minElevation (k + 1) rest none
        else
          visScanLoop minElevation (k + 1) rest none

/-- Visibility scan over the minute-step elevation samples, translated from
calculateVisibilityWindows. -/
def calculateVisibilityWindows (samples : List ℚ) (minElevation : ℚ) :
    List VisPass :=
  visScanLoop minElevation 0 samples none

/-- A profile is above a threshold exactly on an open time interval. -/
def crossingWindow (f : ℚ → ℚ) (threshold lo hi : ℚ) : Prop :=
  ∀ t, f t > threshold ↔ lo < t ∧ t < hi

/-- The first minute-step samples of a continuous-time elevation profile, as
the scanner queries them. -/
def minuteSamples (f : ℚ → ℚ) (n : ℕ) : List ℚ :=
  (List.range n).map fun k => f (60 * k)

/-- Synthetic elevation profile at 90 degrees on an open interval and 0
outside it. -/
def profileAbove (lo hi : ℚ) : ℚ → ℚ := fun t => if lo < t ∧ t < hi then 90 else 0

/-! ## Claim statements and concrete witness inputs -/

open Classical in
/-- Spec statement of the heating transition (claim C3): the temperature
rise is the area-to-mass ratio over the specific heat times the absorption
efficiency times the fluence in J per square m times the pulse count; the
proposal is accepted exactly when the rise over ambient stays within
maxTempRise and the melting point is not reached, updating the state and
reporting the safety margin, and otherwise rejected with MELTING_RISK when
the proposed temperature reaches the melting point and TEMP_LIMIT_EXCEEDED
otherwise, the state left unchanged. -/
def heatingSpecClaim (th : ThermalState) (numPulses fluence : ℝ) : Prop :=
  let deltaT := (th.area / th.mass) / th.specificHeat *
    heatAbsorptionEfficiency fluence * (fluence * 10000) * numPulses
  let newTemp := th.currentTemp + deltaT
  ((newTemp - th.ambientTemp ≤ th.maxTempRise ∧ newTemp < th.meltingPoint) →
    applyHeating th numPulses fluence =
      (HeatResult.success newTemp deltaT (newTemp - th.ambientTemp)
        (th.maxTempRise - (newTemp - th.ambientTemp)),
        { th with currentTemp := newTemp })) ∧
  (¬ (newTemp - th.ambientTemp ≤ th.maxTempRise ∧ newTemp < th.meltingPoint) →
    (applyHeating th numPulses fluence).2 = th ∧
    (applyHeating th numPulses fluence).1 =
      HeatResult.failure
        (if th.meltingPoint ≤ newTemp then HeatReason.MELTING_RISK
          else HeatReason.TEMP_LIMIT_EXCEEDED)
        th.currentTemp newTemp (th.ambientTemp + th.maxTempRise))

/-- Spec statement of the cooling transition (claim C7, amended): the new
temperature follows the exponential relaxation toward ambient with the
radiative time constant linearized at the current temperature, only the
temperature changes, and the gap to ambient never grows. -/
def coolingSpecClaim (th : ThermalState) (elapsed : ℝ) : Prop :=
  (applyCooling th elapsed).currentTemp =
      th.ambientTemp + (th.currentTemp - th.ambientTemp) *
        Real.exp (-elapsed /
          (1 / (4 * (0.8 * 5.67e-8 * th.area / (th.mass * th.specificHeat)) *
            th.currentTemp ^ 3))) ∧
  applyCooling th elapsed = { th with currentTemp := (applyCooling th elapsed).currentTemp } ∧
  |(applyCooling th elapsed).currentTemp - th.ambientTemp| ≤
    |th.currentTemp - th.ambientTemp|

/-- Thermal state with the physically impossible temperature of minus one
Kelvin, on which the claimed cooling contraction fails. -/
def coldState : ThermalState := ⟨1, 1, 1, 1, 100, 933, -1, 0⟩

/-- Ordinary thermal state used as a concrete witness input. -/
def warmState : ThermalState := ⟨1, 1, 1, 1, 100, 933, 270, 270⟩

/-- Debris of size 6 used to exercise the large-object intensity gate. -/
def gateDebris : Debris := ⟨6, 1, 1, 7000000, 0, 600000, 600000, 300, 0⟩

/-- Debris of size 1, below the intensity-gate size threshold. -/
def limitDebris : Debris := ⟨1, 1, 1, 7000000, 0, 600000, 600000, 300, 0⟩

/-- Laser configuration used as a concrete witness input; the one-meter
wavelength keeps the Rayleigh range small so the far-field branch applies at
short range. -/
def witnessLaser : LaserParams := ⟨100000, 1, 1e-9, 2, 1, 5⟩

/-- Laser configuration with repetition rate zero, making the time-based
pulse cap vanish. -/
def idleLaser : LaserParams := ⟨100000, 1, 1e-9, 2, 1, 0⟩

/-- Claim C1, counterexample: the momentum-coupling coefficient is not a
clamped constant floor above fluence 150; it takes the value 19.5 at 160
and 19 at 170, so it is not constant there. -/
theorem momentumCoupling_not_constant_above_150 :
    (150 : ℝ) < 160 ∧ (150 : ℝ) < 170 ∧
      momentumCouplingCoefficient 160 = 19.5 ∧
      momentumCouplingCoefficient 170 = 19 ∧
      momentumCouplingCoefficient 160 ≠ momentumCouplingCoefficient 170 := by
  have h160 : momentumCouplingCoefficient 160 = 19.5 := by
    unfold momentumCouplingCoefficient
    rw [if_neg (by norm_num), if_neg (by norm_num), if_neg (by norm_num),
      max_eq_right (by norm_num)]
    norm_num
  have h170 : momentumCouplingCoefficient 170 = 19 := by
    unfold momentumCouplingCoefficient
    rw [if_neg (by norm_num), if_neg (by norm_num), if_neg (by norm_num),
      max_eq_right (by norm_num)]
    norm_num
  refine ⟨by norm_num, by norm_num, h160, h170, ?_⟩
  rw [h160, h170]; norm_num

/-- Claim C2, counterexample: the heat-absorption efficiency is not the
constant floor 0.3 for all fluence above 100; at fluence 110 it is 0.45. -/
theorem heatAbsorption_not_floor_above_100 :
    (100 : ℝ) < 110 ∧ heatAbsorptionEfficiency 110 = 0.45 ∧
      heatAbsorptionEfficiency 110 ≠ 0.3 := by
  have h : heatAbsorptionEfficiency 110 = 0.45 := by
    unfold heatAbsorptionEfficiency
    rw [if_neg (by norm_num), if_neg (by norm_num), max_eq_right (by norm_num)]
    norm_num
  exact ⟨by norm_num, h, by rw [h]; norm_num⟩

/-- Claim C1 (amended): the momentum-coupling coefficient equals the
four-segment piecewise-linear breakpoint curve rising 5 to 10 below fluence
10, rising 10 to 25 between 10 and 50, falling 25 to 20 between 50 and 150,
and above 150 falling linearly from 20 toward the floor 10 (reached at
fluence 350), clamped from below at 10. -/
theorem momentumCouplingCoefficient_eq_amendedSpec :
    ∀ f : ℝ, momentumCouplingCoefficient f = cmCurveAmendedSpec f := by
  intro f
  unfold momentumCouplingCoefficient cmCurveAmendedSpec segLin
  split_ifs <;> norm_num <;> ring_nf

/-- Claim C2 (amended): the heat-absorption efficiency equals the
three-segment piecewise breakpoint curve which is flat 0.7 below fluence 20,
decays linearly 0.7 to 0.46 between 20 and 100, and above 100 continues to
decay linearly from 0.46 toward the floor 0.3 (reached at fluence 260),
clamped from below at 0.3. -/
theorem heatAbsorptionEfficiency_eq_amendedSpec :
    ∀ f : ℝ, heatAbsorptionEfficiency f = etaCurveAmendedSpec f := by
  intro f
  unfold heatAbsorptionEfficiency etaCurveAmendedSpec segLin
  split_ifs <;> norm_num <;> ring_nf

/-- Claim C3: applyHeating computes the temperature rise from the spec's
formula, accepts exactly when the rise over ambient stays within maxTempRise
and the melting point is not reached (updating the state and returning the
safety margin), and otherwise rejects with MELTING_RISK when the proposed
temperature reaches the melting point and TEMP_LIMIT_EXCEEDED otherwise,
leaving the temperature unchanged on every rejection.  The hypothesis
records that the tracked area-to-mass ratio is the one the constructor
derives. -/
theorem applyHeating_matches_spec (th : ThermalState) (numPulses fluence : ℝ)
    (hAM : th.areaToMass = th.area / th.mass) :
    heatingSpecClaim th numPulses fluence := by
  have hdT : calculateTempRise th numPulses fluence =
      (th.area / th.mass) / th.specificHeat *
        heatAbsorptionEfficiency fluence * (fluence * 10000) * numPulses := by
    unfold calculateTempRise
    rw [hAM]; ring
  unfold heatingSpecClaim
  simp only [applyHeating, hdT, ge_iff_le, not_le]
  constructor
  · intro hacc
    rw [if_pos hacc]
  · intro hrej
    rw [if_neg hrej]
    exact ⟨rfl, rfl⟩

/-- Witness for claim C3 at a concrete state and input. -/
theorem applyHeating_matches_spec_witness : heatingSpecClaim warmState 0 0 :=
  applyHeating_matches_spec warmState 0 0 (by norm_num [warmState])

/-- Claim C7, counterexample: on the thermal state with currentTemp minus
one Kelvin the linearized time constant is negative, so one second of
applyCooling strictly increases the gap between the temperature and
ambient. -/
theorem applyCooling_can_increase_gap :
    |(applyCooling coldState 1).currentTemp - coldState.ambientTemp| >
      |coldState.currentTemp - coldState.ambientTemp| := by
  have hτ : coolingTimeConstant coldState = -(10 ^ 11) / 18144 := by
    unfold coolingTimeConstant coolingRate coldState
    norm_num
  have hx : -(1 : ℝ) / (-(10 ^ 11) / 18144) = 18144 / 10 ^ 11 := by norm_num
  have hgt : (1 : ℝ) < Real.exp (18144 / 10 ^ 11) := by
    calc (1 : ℝ) = Real.exp 0 := Real.exp_zero.symm
    _ < Real.exp (18144 / 10 ^ 11) := Real.exp_lt_exp.mpr (by norm_num)
  have hnew : (applyCooling coldState 1).currentTemp =
      -Real.exp (18144 / 10 ^ 11) := by
    show coldState.ambientTemp + (coldState.currentTemp - coldState.ambientTemp) *
        Real.exp (-1 / coolingTimeConstant coldState) = -Real.exp (18144 / 10 ^ 11)
    rw [hτ, hx]
    norm_num [coldState]
  rw [hnew]
  have h0 : (0:ℝ) < Real.exp (18144 / 10 ^ 11) := Real.exp_pos _
  rw [show coldState.ambientTemp = (0:ℝ) from rfl,
    show coldState.currentTemp = (-1:ℝ) from rfl]
  rw [sub_zero, sub_zero, abs_neg, abs_neg, abs_one,
    abs_of_pos h0]
  exact hgt

/-- Claim C7 (amended): on every thermal state whose temperature, area, mass
and specific heat are positive, as they are for every state the tracker
constructor can produce and its transitions preserve, applyCooling is a
total transition that sets the temperature to ambient plus the gap scaled by
exp of minus the elapsed time over the linearized radiative time constant,
changes nothing else, and for nonnegative elapsed time never increases the
gap between temperature and ambient. -/
theorem applyCooling_matches_spec (th : ThermalState) (elapsed : ℝ)
    (ht : 0 ≤ elapsed) (hT : 0 < th.currentTemp) (hA : 0 < th.area)
    (hM : 0 < th.mass) (hS : 0 < th.specificHeat) :
    coolingSpecClaim th elapsed := by
  have hc : 0 < coolingRate th := by
    unfold coolingRate
    exact div_pos (mul_pos (by norm_num) hA) (mul_pos hM hS)
  have hτ : 0 < coolingTimeConstant th := by
    unfold coolingTimeConstant
    exact one_div_pos.mpr
      (mul_pos (mul_pos (by norm_num) hc) (pow_pos hT 3))
  refine ⟨rfl, rfl, ?_⟩
  have he1 : Real.exp (-elapsed / coolingTimeConstant th) ≤ 1 := by
    rw [← Real.exp_zero]
    refine Real.exp_le_exp.mpr ?_
    rw [neg_div]
    exact neg_nonpos.mpr (div_nonneg ht hτ.le)
  have hstep : (applyCooling th elapsed).currentTemp - th.ambientTemp =
      (th.currentTemp - th.ambientTemp) *
        Real.exp (-elapsed / coolingTimeConstant th) := by
    show th.ambientTemp + (th.currentTemp - th.ambientTemp) *
        Real.exp (-elapsed / coolingTimeConstant th) - th.ambientTemp = _
    ring
  rw [hstep, abs_mul, Real.abs_exp]
  exact mul_le_of_le_one_right (abs_nonneg _) he1

/-- Witness for the amended claim C7 at a concrete state and elapsed time. -/
theorem applyCooling_matches_spec_witness : coolingSpecClaim warmState 0 :=
  applyCooling_matches_spec warmState 0 le_rfl (by norm_num [warmState])
    (by norm_num [warmState]) (by norm_num [warmState]) (by norm_num [warmState])

/-- Claim C4: trackPerigeeEvolution produces exactly the apogee-anchored
recurrence of the spec: each step reduces the apogee velocity by deltaV over
1000, solves the new semi-major axis from the vis-viva relation with the
apogee radius held fixed, takes the new perigee radius as 2a minus the
apogee radius, and flags re-entry at exactly the steps whose perigee
altitude is below the 200 km threshold. -/
theorem trackPerigeeEvolution_matches_specRecurrence
    (initialPerigee initialApogee : ℝ) (deltaVs : List ℝ) :
    trackPerigeeEvolution initialPerigee initialApogee deltaVs =
      specInitialEntry initialPerigee initialApogee ::
        specPerigeeEvolution (initialApogee + EARTH_RADIUS_KM)
          ((initialPerigee + initialApogee) / 2 + EARTH_RADIUS_KM) deltaVs 0 := by
  have loop : ∀ (dvs : List ℝ) (a rp e : ℝ) (idx : ℕ),
      trackPerigeeEvolutionLoop (initialApogee + EARTH_RADIUS_KM) a rp e dvs idx =
        specPerigeeEvolution (initialApogee + EARTH_RADIUS_KM) a dvs idx := by
    intro dvs
    induction dvs with
    | nil => intro a rp e idx; rfl
    | cons dv rest ih =>
      intro a rp e idx
      simp only [trackPerigeeEvolutionLoop, specPerigeeEvolution, apogeeVelocity,
        reducedVelocity, smaFromVisVivaAtApogee, perigeeRadiusFromSMA]
      rw [ih]
  show _ :: trackPerigeeEvolutionLoop _ _ _ _ deltaVs 0 = _
  rw [loop]
  rfl

/-- Claim C5, counterexample: with initial perigee and apogee 400 km and the
single positive delta-V of 16000 m per s, the burn makes the apogee velocity
negative with a larger square, the solved semi-major axis grows, and the
reported perigee altitude of the next pass rises above the initial 400 km,
so the perigee is not non-increasing for every positive sequence. -/
theorem trackPerigeeEvolution_perigee_can_increase :
    (0 : ℝ) < 16000 ∧
      perigeeAt (trackPerigeeEvolution 400 400 [16000]) 0 <
        perigeeAt (trackPerigeeEvolution 400 400 [16000]) 1 := by
  refine ⟨by norm_num, ?_⟩
  have harg : MU_EARTH * (2 / ((400:ℝ) + EARTH_RADIUS_KM) -
      1 / (((400:ℝ) + 400) / 2 + EARTH_RADIUS_KM)) = 398600.4418 / 6771 := by
    unfold MU_EARTH EARTH_RADIUS_KM
    norm_num
  set S := Real.sqrt (MU_EARTH * (2 / ((400:ℝ) + EARTH_RADIUS_KM) -
    1 / (((400:ℝ) + 400) / 2 + EARTH_RADIUS_KM))) with hS
  have hSlo : (7.67 : ℝ) < S := by
    rw [hS, harg]
    rw [show (7.67:ℝ) = Real.sqrt (7.67 ^ 2) by
      rw [Real.sqrt_sq (by norm_num)]]
    exact Real.sqrt_lt_sqrt (by norm_num) (by norm_num)
  have hShi : S < 7.68 := by
    rw [hS, harg]
    rw [show (7.68:ℝ) = Real.sqrt (7.68 ^ 2) by
      rw [Real.sqrt_sq (by norm_num)]]
    exact Real.sqrt_lt_sqrt (by norm_num) (by norm_num)
  have hsq_lo : (69.2224 : ℝ) < (S - 16000 / 1000) * (S - 16000 / 1000) := by
    nlinarith
  have hsq_hi : (S - 16000 / 1000) * (S - 16000 / 1000) < 69.3889 := by
    nlinarith
  have hd_pos : 0 < 2 / ((400:ℝ) + EARTH_RADIUS_KM) -
      (S - 16000 / 1000) * (S - 16000 / 1000) / MU_EARTH := by
    unfold MU_EARTH EARTH_RADIUS_KM
    have h1 : (S - 16000 / 1000) * (S - 16000 / 1000) / 398600.4418 <
        69.3889 / 398600.4418 :=
      (div_lt_div_iff_of_pos_right (by norm_num)).mpr hsq_hi
    have h2 : (69.3889:ℝ) / 398600.4418 < 2 / (400 + 6371.0) := by norm_num
    linarith
  have hd_lt : 2 / ((400:ℝ) + EARTH_RADIUS_KM) -
      (S - 16000 / 1000) * (S - 16000 / 1000) / MU_EARTH < 1 / 6771 := by
    unfold MU_EARTH EARTH_RADIUS_KM
    have h1 : (69.2224:ℝ) / 398600.4418 <
        (S - 16000 / 1000) * (S - 16000 / 1000) / 398600.4418 :=
      (div_lt_div_iff_of_pos_right (by norm_num)).mpr hsq_lo
    have h2 : 2 / ((400:ℝ) + 6371.0) - 1 / 6771 < 69.2224 / 398600.4418 := by norm_num
    linarith
  have hbig : (6771 : ℝ) < 1 / (2 / ((400:ℝ) + EARTH_RADIUS_KM) -
      (S - 16000 / 1000) * (S - 16000 / 1000) / MU_EARTH) := by
    have := one_div_lt_one_div_of_lt hd_pos hd_lt
    rw [one_div_one_div] at this
    exact this
  show (400:ℝ) <
    2 * (1 / (2 / (400 + EARTH_RADIUS_KM) -
      (S - 16000 / 1000) * (S - 16000 / 1000) / MU_EARTH)) -
    (400 + EARTH_RADIUS_KM) - EARTH_RADIUS_KM
  unfold EARTH_RADIUS_KM at hbig ⊢
  linarith [hbig]

/-- Claim C5 (amended): over one step of trackPerigeeEvolution, with a
nonnegative initial perigee not above the apogee and a nonnegative delta-V
whose km-per-s equivalent does not exceed the current apogee velocity (so
the retrograde burn does not reverse the direction of motion), the reported
perigee altitude does not increase. -/
theorem trackPerigeeEvolution_step_nonincreasing (p ap dv : ℝ)
    (hp : 0 ≤ p) (hpa : p ≤ ap) (hdv : 0 ≤ dv)
    (hrev : dv / 1000 ≤
      apogeeVelocity (ap + EARTH_RADIUS_KM) ((p + ap) / 2 + EARTH_RADIUS_KM)) :
    perigeeAt (trackPerigeeEvolution p ap [dv]) 1 ≤
      perigeeAt (trackPerigeeEvolution p ap [dv]) 0 := by
  have hra : (0:ℝ) < ap + EARTH_RADIUS_KM := by
    unfold EARTH_RADIUS_KM; linarith
  have ha : (0:ℝ) < (p + ap) / 2 + EARTH_RADIUS_KM := by
    unfold EARTH_RADIUS_KM; linarith
  have hMU : (0:ℝ) < MU_EARTH := by unfold MU_EARTH; norm_num
  have hvis : 0 ≤ 2 / (ap + EARTH_RADIUS_KM) - 1 / ((p + ap) / 2 + EARTH_RADIUS_KM) := by
    rw [sub_nonneg, div_le_div_iff₀ ha hra]
    unfold EARTH_RADIUS_KM
    linarith
  have hargnn : 0 ≤ MU_EARTH *
      (2 / (ap + EARTH_RADIUS_KM) - 1 / ((p + ap) / 2 + EARTH_RADIUS_KM)) :=
    mul_nonneg hMU.le hvis
  set S := apogeeVelocity (ap + EARTH_RADIUS_KM) ((p + ap) / 2 + EARTH_RADIUS_KM) with hSdef
  have hSsq : S * S = MU_EARTH *
      (2 / (ap + EARTH_RADIUS_KM) - 1 / ((p + ap) / 2 + EARTH_RADIUS_KM)) := by
    rw [hSdef]
    unfold apogeeVelocity
    exact Real.mul_self_sqrt hargnn
  have hvnn : 0 ≤ S - dv / 1000 := sub_nonneg.mpr hrev
  have hvle : S - dv / 1000 ≤ S := by
    have : 0 ≤ dv / 1000 := by positivity
    linarith
  have hsqle : (S - dv / 1000) * (S - dv / 1000) ≤ S * S :=
    mul_self_le_mul_self hvnn hvle
  have hd_lo : 1 / ((p + ap) / 2 + EARTH_RADIUS_KM) ≤
      2 / (ap + EARTH_RADIUS_KM) - (S - dv / 1000) * (S - dv / 1000) / MU_EARTH := by
    have h1 : (S - dv / 1000) * (S - dv / 1000) / MU_EARTH ≤ S * S / MU_EARTH :=
      (div_le_div_iff_of_pos_right hMU).mpr hsqle
    have h2 : S * S / MU_EARTH =
        2 / (ap + EARTH_RADIUS_KM) - 1 / ((p + ap) / 2 + EARTH_RADIUS_KM) := by
      rw [hSsq, mul_div_cancel_left₀ _ hMU.ne']
    linarith
  have hanew : 1 / (2 / (ap + EARTH_RADIUS_KM) -
      (S - dv / 1000) * (S - dv / 1000) / MU_EARTH) ≤ (p + ap) / 2 + EARTH_RADIUS_KM := by
    have h3 := one_div_le_one_div_of_le (one_div_pos.mpr ha) hd_lo
    rwa [one_div_one_div] at h3
  show 2 * (1 / (2 / (ap + EARTH_RADIUS_KM) -
      (S - dv / 1000) * (S - dv / 1000) / MU_EARTH)) -
    (ap + EARTH_RADIUS_KM) - EARTH_RADIUS_KM ≤ p
  linarith [hanew]

/-- Witness for the amended claim C5 at a concrete orbit and delta-V. -/
theorem trackPerigeeEvolution_step_nonincreasing_witness :
    perigeeAt (trackPerigeeEvolution 400 400 [0]) 1 ≤
      perigeeAt (trackPerigeeEvolution 400 400 [0]) 0 :=
  trackPerigeeEvolution_step_nonincreasing 400 400 0 (by norm_num) le_rfl le_rfl
    (by rw [zero_div]; exact Real.sqrt_nonneg _)

/-- Claim C6: for debris larger than 5 and a configuration whose intensity
exceeds the fixed multiple of the solar constant scaled to W per square cm,
simulateLaserPass refuses the engagement with INTENSITY_TOO_HIGH and the
returned thermal state and debris are exactly the ones passed in. -/
theorem simulateLaserPass_intensity_gate (d : Debris) (l : LaserParams)
    (distance : ℝ) (th : ThermalState) (hsize : d.size > 5)
    (hint : simIntensity l distance > maxSafeIntensity) :
    simulateLaserPass d l distance th =
      (SimOutcome.intensityTooHigh (simIntensity l distance) maxSafeIntensity, th, d) := by
  unfold simulateLaserPass
  rw [if_pos ⟨hsize, hint⟩]

/-- Witness for claim C6: a size-6 debris under a configuration whose
intensity is far above the cap is refused with the gate firing. -/
theorem simulateLaserPass_intensity_gate_witness :
    simulateLaserPass gateDebris witnessLaser 100 warmState =
      (SimOutcome.intensityTooHigh (simIntensity witnessLaser 100) maxSafeIntensity,
        warmState, gateDebris) := by
  have hπ1 : (3.1415 : ℝ) < Real.pi := by
    have h := Real.pi_gt_d6
    linarith
  have hπ2 : Real.pi < 3.15 := by
    have h := Real.pi_lt_d2
    linarith
  have hπ0 : (0:ℝ) < Real.pi := Real.pi_pos
  have hb : simBeamRadius witnessLaser 100 = 1 + 100 / Real.pi := by
    unfold simBeamRadius calculateBeamRadius witnessLaser
    rw [if_pos]
    · norm_num [div_eq_mul_inv]
    · show (100:ℝ) > 10 * (Real.pi * (2/2) * (2/2) / (1 * 1))
      norm_num
      linarith
  have hwpos : (0:ℝ) < 1 + 100 / Real.pi := by positivity
  have hexp : Real.pi * (1 + 100 / Real.pi) * (1 + 100 / Real.pi) =
      Real.pi + 200 + 10000 / Real.pi := by
    field_simp
    ring
  have hquad : Real.pi * (1 + 100 / Real.pi) * (1 + 100 / Real.pi) < 3400 := by
    rw [hexp]
    have h1 : 10000 / Real.pi < 10000 / 3.1415 :=
      div_lt_div_of_pos_left (by norm_num) (by norm_num) hπ1
    have h2 : (10000:ℝ) / 3.1415 < 3184 := by norm_num
    linarith
  have hqpos : (0:ℝ) < Real.pi * (1 + 100 / Real.pi) * (1 + 100 / Real.pi) := by
    positivity
  have hint : simIntensity witnessLaser 100 > maxSafeIntensity := by
    unfold simIntensity calculateIntensity maxSafeIntensity
      SOLAR_CONSTANT MAX_SOLAR_CONSTANT_MULTIPLIER
    rw [hb]
    simp only [witnessLaser]
    show (100000:ℝ) / 1e-9 / (Real.pi * (1 + 100 / Real.pi) * (1 + 100 / Real.pi)) /
      10000 > 1361 * 100 / 10000
    have h3 : (100000:ℝ) / 1e-9 = 1e14 := by norm_num
    rw [h3]
    have h4 : (1e14:ℝ) / 3400 < 1e14 / (Real.pi * (1 + 100 / Real.pi) * (1 + 100 / Real.pi)) :=
      div_lt_div_of_pos_left (by norm_num) hqpos hquad
    have h5 : (1361:ℝ) * 100 / 10000 < 1e14 / 3400 / 10000 := by norm_num
    calc (1361:ℝ) * 100 / 10000 < 1e14 / 3400 / 10000 := h5
    _ < 1e14 / (Real.pi * (1 + 100 / Real.pi) * (1 + 100 / Real.pi)) / 10000 := by
        exact (div_lt_div_iff_of_pos_right (by norm_num)).mpr h4
  exact simulateLaserPass_intensity_gate gateDebris witnessLaser 100 warmState
    (by norm_num [gateDebris]) hint

/-- Every pass the scanner loop emits passed the 30-second duration filter. -/
theorem visScanLoop_duration_gt (minElevation : ℚ) :
    ∀ (samples : List ℚ) (k : ℕ) (active : Option (ℚ × ℚ)) (p : VisPass),
      p ∈ visScanLoop minElevation k samples active → 30 < p.duration := by
  intro samples
  induction samples with
  | nil =>
    intro k active p hp
    simp [visScanLoop] at hp
  | cons e rest ih =>
    intro k active p hp
    simp only [visScanLoop] at hp
    by_cases he : e > minElevation
    · rw [if_pos he] at hp
      cases active with
      | none => exact ih _ _ _ hp
      | some sm => exact ih _ _ _ hp
    · rw [if_neg he] at hp
      cases active with
      | none => exact ih _ _ _ hp
      | some sm =>
        obtain ⟨s, m⟩ := sm
        dsimp only at hp
        by_cases hd : scanStepSeconds * k - s > 30
        · rw [if_pos hd] at hp
          rcases List.mem_cons.mp hp with h | h
          · rw [h]
            exact hd
          · exact ih _ _ _ h
        · rw [if_neg hd] at hp
          exact ih _ _ _ hp

/-- The minute samples of the profile crossing from second 50 to second 70. -/
theorem minuteSamples_crossing_50_70 :
    minuteSamples (profileAbove 50 70) 3 = [0, 90, 0] := by
  norm_num [minuteSamples, profileAbove, List.range_succ]

/-- The minute samples of the profile crossing from second 30 to second 50. -/
theorem minuteSamples_crossing_30_50 :
    minuteSamples (profileAbove 30 50) 3 = [0, 0, 0] := by
  norm_num [minuteSamples, profileAbove, List.range_succ]

/-- The minute samples of the profile crossing from second 50 to second 90. -/
theorem minuteSamples_crossing_50_90 :
    minuteSamples (profileAbove 50 90) 3 = [0, 90, 0] := by
  norm_num [minuteSamples, profileAbove, List.range_succ]

/-- The scanner output on the sample list with one elevated minute sample:
one pass from second 60 to second 120 of duration 60. -/
theorem visScan_single_sample_pass :
    calculateVisibilityWindows [0, 90, 0] 20 = [⟨60, 120, 60, 90⟩] := by
  unfold calculateVisibilityWindows
  rw [visScanLoop]
  rw [if_neg (by norm_num)]
  rw [visScanLoop]
  rw [if_pos (by norm_num)]
  rw [visScanLoop]
  rw [if_neg (by norm_num)]
  rw [if_pos (by norm_num [scanStepSeconds])]
  rw [visScanLoop]
  norm_num [scanStepSeconds]

/-- The scanner output on the all-zero sample list: no passes. -/
theorem visScan_no_sample_pass :
    calculateVisibilityWindows [0, 0, 0] 20 = [] := by
  unfold calculateVisibilityWindows
  rw [visScanLoop]
  rw [if_neg (by norm_num)]
  rw [visScanLoop]
  rw [if_neg (by norm_num)]
  rw [visScanLoop]
  rw [if_neg (by norm_num)]
  rw [visScanLoop]

/-- Claim C8, counterexample: the synthetic profile above the 20-degree
threshold exactly on the open interval from second 50 to second 70, a
crossing of exactly 20 seconds, does produce a pass in the scanner output,
because the minute sample at second 60 lies inside the crossing and the
emitted pass spans a full 60-second step. -/
theorem visibilityScanner_emits_20s_crossing :
    crossingWindow (profileAbove 50 70) 20 50 70 ∧
      ((70 : ℚ) - 50 = 20) ∧
      (calculateVisibilityWindows (minuteSamples (profileAbove 50 70) 3) 20).length
        = 1 := by
  refine ⟨?_, by norm_num,
    by rw [minuteSamples_crossing_50_70, visScan_single_sample_pass]; rfl⟩
  intro t
  unfold profileAbove
  split_ifs with h
  · exact iff_of_true (by norm_num) h
  · exact iff_of_false (by norm_num) h

/-- Claim C8 (amended): every emitted pass has duration strictly greater
than 30 seconds; but because the scanner samples once per minute, whether a
short crossing appears depends on whether it contains a sample instant: a
20-second crossing containing no minute sample produces no pass, while a
40-second crossing containing one minute sample produces exactly one pass
whose reported duration is the 60-second step, within one sampling step of
the true 40 seconds. -/
theorem visibilityScanner_minimum_filter :
    (∀ (samples : List ℚ) (minElevation : ℚ) (p : VisPass),
        p ∈ calculateVisibilityWindows samples minElevation → 30 < p.duration) ∧
      calculateVisibilityWindows (minuteSamples (profileAbove 30 50) 3) 20 = [] ∧
      calculateVisibilityWindows (minuteSamples (profileAbove 50 90) 3) 20 =
        [⟨60, 120, 60, 90⟩] ∧
      ((60 : ℚ) - 40 ≤ 60) := by
  refine ⟨?_, by rw [minuteSamples_crossing_30_50]; exact visScan_no_sample_pass,
    by rw [minuteSamples_crossing_50_90]; exact visScan_single_sample_pass,
    by norm_num⟩
  intro samples minElevation p hp
  exact visScanLoop_duration_gt minElevation samples 0 none p hp

/-- Witness for the amended claim C8: the emitted pass of the 40-second
crossing indeed exceeds the 30-second filter. -/
theorem visibilityScanner_minimum_filter_witness :
    (30 : ℚ) < VisPass.duration ⟨60, 120, 60, 90⟩ :=
  visibilityScanner_minimum_filter.1 (minuteSamples (profileAbove 50 90) 3) 20
    ⟨60, 120, 60, 90⟩
    (by rw [minuteSamples_crossing_50_90, visScan_single_sample_pass]
        exact List.mem_singleton.mpr rfl)

/-- Claim C9, counterexample: at zero energy and zero duration the total
cost is zero, and the code divides by it with no guard, so the spacecraft
comparison ratio (and the per-km cost, divided by the zero duration) is not
a finite number. -/
theorem calculateMissionCost_zero_total_not_finite :
    (calculateMissionCost 0 0).comparisonToSpacecraft = none ∧
      (calculateMissionCost 0 0).costPerKm = none := by
  unfold calculateMissionCost jsDiv
  norm_num

/-- Claim C9 (amended): the cost estimator is a pure function whose
electricity, operating and total cost fields are always well-defined, with
the total the sum of the other two; but the code contains no division-by-
zero guards, so the two ratio fields are finite exactly when their divisors
are nonzero: the spacecraft comparison is finite exactly when the total cost
is nonzero, in which case it equals the fixed reference cost over the total,
and the per-km cost is finite exactly when the duration is nonzero. -/
theorem calculateMissionCost_fields (totalEnergyGJ durationDays : ℝ) :
    (calculateMissionCost totalEnergyGJ durationDays).totalCost =
        (calculateMissionCost totalEnergyGJ durationDays).electricityCost +
          (calculateMissionCost totalEnergyGJ durationDays).operatingCost ∧
      ((calculateMissionCost totalEnergyGJ durationDays).comparisonToSpacecraft.isSome ↔
        (calculateMissionCost totalEnergyGJ durationDays).totalCost ≠ 0) ∧
      ((calculateMissionCost totalEnergyGJ durationDays).costPerKm.isSome ↔
        durationDays ≠ 0) ∧
      ((calculateMissionCost totalEnergyGJ durationDays).totalCost ≠ 0 →
        (calculateMissionCost totalEnergyGJ durationDays).comparisonToSpacecraft =
          some (100e6 /
            (calculateMissionCost totalEnergyGJ durationDays).totalCost)) := by
  unfold calculateMissionCost jsDiv
  refine ⟨rfl, ?_, ?_, ?_⟩
  · dsimp only
    split_ifs with h
    · simp [h]
    · simp [h]
  · dsimp only
    split_ifs with h
    · have h0 : durationDays = 0 := by
        rcases mul_eq_zero.mp h with h1 | h1
        · exact h1
        · norm_num at h1
      simp [h0]
    · have : durationDays ≠ 0 := fun h0 => h (by rw [h0]; ring)
      simp [this]
  · intro h
    dsimp only at h ⊢
    rw [if_neg h]

/-- Witness for the amended claim C9 at one gigajoule and one day, where the
total cost is nonzero and the comparison ratio is the finite quotient. -/
theorem calculateMissionCost_fields_witness :
    (calculateMissionCost 1 1).comparisonToSpacecraft =
      some (100e6 / (calculateMissionCost 1 1).totalCost) :=
  (calculateMissionCost_fields 1 1).2.2.2 (by norm_num [calculateMissionCost])

/-- Claim C10: the thermal pulse budget is clamped from below at one pulse
for every input, so the THERMAL_LIMIT_REACHED skip in simulateLaserPass can
fire only when the time-based cap from the repetition rate over the pass
duration is below one pulse, never through the thermal budget alone. -/
theorem pulseBudget_at_least_one (d : Debris) (l : LaserParams) (distance : ℝ)
    (th : ThermalState) :
    (∀ maxTempRise currentTemp fluence areaToMass specificHeat : ℝ,
        1 ≤ calculateMaxPulsesPerPass maxTempRise currentTemp fluence
          areaToMass specificHeat) ∧
      ((simulateLaserPass d l distance th).1 = SimOutcome.thermalLimitReached →
        simMaxPulsesByTime d l < 1) := by
  constructor
  · intro mtr ct f am sh
    unfold calculateMaxPulsesPerPass
    exact le_max_left _ _
  · intro h
    unfold simulateLaserPass at h
    by_cases h1 : d.size > 5 ∧ simIntensity l distance > maxSafeIntensity
    · rw [if_pos h1] at h
      simp at h
    · rw [if_neg h1] at h
      by_cases h2 : simActualPulses d l th distance < 1
      · have hmax : 1 ≤ simMaxPulsesByThermal d th (simFluence l distance) := by
          unfold simMaxPulsesByThermal calculateMaxPulsesPerPass
          exact le_max_left _ _
        have h2m := h2
        unfold simActualPulses at h2m
        rcases min_lt_iff.mp h2m with hh | hh
        · exact absurd hh (not_lt.mpr hmax)
        · exact hh
      · rw [if_neg h2] at h
        rcases hres : applyHeating th (((simActualPulses d l th distance : ℤ) : ℝ))
            (simFluence l distance) with ⟨res, th2⟩
        rw [hres] at h
        cases res <;> simp at h

/-- Witness for claim C10: with repetition rate zero the time cap is zero,
the pass is skipped with THERMAL_LIMIT_REACHED, and the time cap is indeed
below one pulse. -/
theorem pulseBudget_at_least_one_witness :
    simMaxPulsesByTime limitDebris idleLaser < 1 := by
  have htime : simMaxPulsesByTime limitDebris idleLaser = 0 := by
    unfold simMaxPulsesByTime simPassDuration limitDebris idleLaser
    norm_num
  have houtcome : (simulateLaserPass limitDebris idleLaser 100 warmState).1 =
      SimOutcome.thermalLimitReached := by
    unfold simulateLaserPass
    rw [if_neg, if_pos]
    · unfold simActualPulses
      rw [htime]
      have hmin : min (simMaxPulsesByThermal limitDebris warmState
          (simFluence idleLaser 100)) 0 ≤ 0 := min_le_right _ _
      omega
    · intro hcon
      have : ¬ limitDebris.size > 5 := by norm_num [limitDebris]
      exact this hcon.1
  exact (pulseBudget_at_least_one limitDebris idleLaser 100 warmState).2 houtcome

end Skyhack
